import Mathlib

/-!
Shallow embedding of the customer-support bot in `main.py`.

The program is single-threaded and effect-free except for an append-only
log file; we model a call to a handler as returning the pair
`(log event types written, outcome)`.  Log payloads are omitted: no claim
concerns them, only the number of writes and the event-type names.
Python's case folding, whitespace stripping and the `re` word classes are
modelled at ASCII level (`Char.toLower`, `Char.isWhitespace`,
`Char.isAlphanum`), which coincides with Python on ASCII input.
Python's substring operator `in` is modelled by the decidable infix
relation on the character lists.
-/

/-- Python `s.lower()` on the character list (ASCII case folding). -/
def lowerL (l : List Char) : List Char := l.map Char.toLower

/-- Python `s.strip()` on the character list: drop whitespace at both ends. -/
def pyStrip (l : List Char) : List Char :=
  ((l.dropWhile Char.isWhitespace).reverse.dropWhile Char.isWhitespace).reverse

/-- Python substring test `needle in hay` on character lists. -/
def containsSub (needle hay : List Char) : Bool := decide (needle <:+: hay)

/-- Regex word-character class `\w` (ASCII): letters, digits, underscore. -/
def isWordChar (c : Char) : Bool := c.isAlphanum || c == '_'

/-- `main.py` line 44: the fixed offensive-word vocabulary. -/
def OFFENSIVE_WORDS : List String := ["idiot", "stupid", "hate", "kill", "damn", "shut up"]

/-- `main.py` line 45: the fixed negative-word vocabulary. -/
def NEGATIVE_WORDS : List String :=
  ["angry", "upset", "unhappy", "not happy", "complain", "bad", "terrible"]

structure GuardrailVerdict where
  offensive : Bool
  negative : Bool
deriving DecidableEq, Repr

/-- `main.py` lines 47-51: lower-case the text and test containment of each
vocabulary word (the `any` over a Python set is order-independent). -/
def detect_offensive_or_negative (text : String) : GuardrailVerdict :=
  let text_lower := lowerL text.toList
  { offensive := OFFENSIVE_WORDS.any fun w => containsSub w.toList text_lower
    negative := NEGATIVE_WORDS.any fun w => containsSub w.toList text_lower }

/-- Word-boundary test `\b` looking right: ok at end of string or before a
non-word character. -/
def boundaryOk : List Char → Bool
  | [] => true
  | c :: _ => !isWordChar c

/-- Word-boundary test `\b` looking left, given the character immediately
before the candidate position (`none` at the start of the string). -/
def prevOk : Option Char → Bool
  | none => true
  | some c => !isWordChar c

/-- Model of `re.search(r"\b([A-Z]\d{2,})\b", s)`: scan left to right for an
uppercase ASCII letter preceded by a word boundary and followed by a maximal
run of at least two digits ending at a word boundary; return the matched
letter-plus-digits group.  Greedy `\d{2,}` with a trailing `\b` matches
exactly the maximal digit run (giving digits back leaves a digit ahead,
which is a word character, so backtracking never helps). -/
def findOrderId : Option Char → List Char → Option String
  | _, [] => none
  | prev, c :: rest =>
    if prevOk prev && c.isUpper && decide (2 ≤ (rest.takeWhile Char.isDigit).length)
        && boundaryOk (rest.dropWhile Char.isDigit)
    then some (String.mk (c :: rest.takeWhile Char.isDigit))
    else findOrderId (some c) rest

/-- `main.py` lines 101-103: the order tool's eligibility predicate. -/
def order_tool_enabled_predicate (query : String) : Bool :=
  containsSub "order".toList (lowerL query.toList) || (findOrderId none query.toList).isSome

/-- `main.py` lines 105-106: the tool's error handler; we model the payload
by its `message` field, the only part the caller uses. -/
def order_error_function (order_id : String) : String :=
  "Order ID '" ++ order_id ++ "' not found. Please check the ID or contact support."

structure OrderRecord where
  status : String
  eta : String
  items : List String
  customer_id : String
deriving DecidableEq, Repr

/-- `main.py` lines 94-98: the static simulated order table. -/
def SIMULATED_ORDERS : List (String × OrderRecord) :=
  [("A100", ⟨"shipped", "2025-09-04", ["Blue T-shirt", "Cap"], "12345"⟩),
   ("B201", ⟨"processing", "2025-09-10", ["Coffee Mug"], "67890"⟩),
   ("C303", ⟨"delivered", "2025-08-20", ["Notebook"], "12345"⟩)]

/-- Python `SIMULATED_ORDERS.get(order_id)` (dict lookup, exact match). -/
def ordersGet (order_id : String) : Option OrderRecord :=
  (SIMULATED_ORDERS.find? fun kv => kv.1 == order_id).map (·.2)

/-- Result dict of `get_order_status`: either `{"error": True, "message": m}`
or the success record fields. -/
inductive ToolResult where
  | err (message : String)
  | ok (order_id status eta : String) (items : List String) (customer_id : String)
deriving DecidableEq, Repr

/-- `main.py` lines 108-114: the order tool body.  It first logs
`tool_invoked`, then looks the id up; the pair returned is
(log events written, result dict). -/
def get_order_status (user_input order_id : String) : List String × ToolResult :=
  let _ := user_input
  (["tool_invoked"],
    match ordersGet order_id with
    | none => .err ("Order " ++ order_id ++ " not found.")
    | some o => .ok order_id o.status o.eta o.items o.customer_id)

/-- `main.py` lines 117-120.  `metadata` is a dict read only at key
`customer_id` and tested for truthiness; we model the entry as a string with
`""` standing for an absent or `None` value (both are falsy, and the guard
tests truthiness before equality, so the behaviours coincide). -/
structure ModelSettings where
  tool_choice : String := "auto"
  customer_id : String := ""
deriving DecidableEq, Repr

def defaultSettings : ModelSettings := {}

/-- Outcome dicts returned by the handlers: `Handled{message, guardrail?,
tool_error?}` (absent flags modelled as `false`) or
`Handoff{reason, message}` (`handled=False, handoff=True`). -/
inductive Outcome where
  | handled (message : String) (guardrail : Bool) (tool_error : Bool)
  | handoff (reason : String) (message : String)
deriving DecidableEq, Repr

/-- Reason code of a handoff outcome, `none` for a handled outcome. -/
def outcomeReason : Outcome → Option String
  | .handoff r _ => some r
  | .handled _ _ _ => none

/-- `main.py` lines 126-130: the FAQ table, in insertion order (Python dicts
iterate in insertion order, so the `for k in self.faqs` loop follows it). -/
def faqs : List (String × String) :=
  [("what is your return policy",
    "You can return items within 14 days of delivery for a full refund (item must be unused)."),
   ("how to contact support",
    "You can contact support at support@example.com or call +1-800-555-1234."),
   ("do you ship internationally",
    "Yes, we ship to many countries. Shipping costs vary by destination.")]

/-- `main.py` lines 134-176: the body of `BotAgent.handle` (inside the
guardrail decorator).  Returns (log event types written, outcome). -/
def handleBody (s : ModelSettings) (user_input : String) : List String × Outcome :=
  let q := lowerL (pyStrip user_input.toList)
  match faqs.find? (fun kv => containsSub kv.1.toList q) with
  | some kv => (["faq_answered"], .handled kv.2 false false)
  | none =>
    let tool_enabled := order_tool_enabled_predicate user_input
    if s.tool_choice == "required" && !tool_enabled then
      (["escalation_reason"], .handoff "tool_required_but_disabled"
        "I need to fetch order details but couldn't. Handing off to human agent.")
    else if tool_enabled && (s.tool_choice == "auto" || s.tool_choice == "required") then
      match findOrderId none user_input.toList with
      | some order_id =>
        let r := get_order_status user_input order_id
        match r.2 with
        | .err _ =>
          -- the tool's error_function is set, so the first branch is taken
          (r.1 ++ ["tool_error"], .handled (order_error_function order_id) false true)
        | .ok _ status eta items cid =>
          let msg := "Order " ++ order_id ++ " is currently '" ++ status ++ "'. ETA: "
            ++ eta ++ ". Items: " ++ String.intercalate ", " items ++ "."
          let msg := if s.customer_id != "" && s.customer_id == cid
            then msg ++ " (Verified customer)" else msg
          (r.1 ++ ["tool_success"], .handled msg false false)
      | none =>
        if (detect_offensive_or_negative user_input).negative then
          (["escalation"], .handoff "negative_sentiment"
            "I can see you're upset. I'll transfer you to a human agent for support.")
        else
          ([], .handled
            "Could you please provide your order ID (format like A100) so I can check the status?"
            false false)
    else
      (["escalation_reason"], .handoff "unknown_or_complex"
        "I'm not sure about that. I'll hand you over to a human agent.")

/-- `main.py` lines 53-70 plus 133: `BotAgent.handle` as wrapped by the
`guardrail` decorator: on offensive input the body is skipped and the fixed
apology outcome returned. -/
def BotAgent.handle (s : ModelSettings) (user_input : String) : List String × Outcome :=
  if (detect_offensive_or_negative user_input).offensive then
    (["guardrail_triggered"], .handled
      "I'm here to help, but I can't respond to offensive language. Could you rephrase your question?"
      true false)
  else handleBody s user_input

/-- The spec sentence's literal reading of the order-id pattern, WITHOUT
word boundaries: somewhere in the text an uppercase ASCII letter is
immediately followed by at least two digits. -/
def LetterDigits (l : List Char) : Prop :=
  ∃ pre c ds post, l = pre ++ c :: (ds ++ post) ∧ c.isUpper = true ∧
    2 ≤ ds.length ∧ ds.all Char.isDigit = true

/-- Left word-boundary condition of a candidate match: the character just
before it (last of `pre`, or the ambient `prev` when `pre` is empty) must
not be a word character. -/
def edgeOk : Option Char → List Char → Bool
  | prev, [] => prevOk prev
  | _, a :: l => edgeOk (some a) l

/-- Declarative reading of the source regex `\b[A-Z]\d{2,}\b` relative to an
ambient preceding character: an uppercase ASCII letter delimited on the left,
followed by at least two digits delimited on the right. -/
def BoundedLetterDigits (prev : Option Char) (l : List Char) : Prop :=
  ∃ pre c ds post, l = pre ++ c :: (ds ++ post) ∧ c.isUpper = true ∧
    2 ≤ ds.length ∧ ds.all Char.isDigit = true ∧
    edgeOk prev pre = true ∧ boundaryOk post = true

/-! ## Helper lemmas -/

theorem containsSub_iff (n h : List Char) : containsSub n h = true ↔ n <:+: h := by
  simp [containsSub]

theorem offensive_eq_true_iff (input : String) :
    (detect_offensive_or_negative input).offensive = true ↔
      ∃ w ∈ OFFENSIVE_WORDS, w.toList <:+: lowerL input.toList := by
  simp [detect_offensive_or_negative, containsSub]

theorem offensive_eq_false (input : String)
    (h : ∀ w ∈ OFFENSIVE_WORDS, ¬ w.toList <:+: lowerL input.toList) :
    (detect_offensive_or_negative input).offensive = false := by
  rw [Bool.eq_false_iff]
  intro hc
  obtain ⟨w, hw, hinf⟩ := (offensive_eq_true_iff input).mp hc
  exact h w hw hinf

theorem find?_append_first {α : Type} (p : α → Bool) (pre post : List α) (x : α)
    (hx : p x = true) (hpre : ∀ a ∈ pre, p a = false) :
    (pre ++ x :: post).find? p = some x := by
  induction pre with
  | nil => simp [List.find?_cons_of_pos, hx]
  | cons a as ih =>
    have ha : p a = false := hpre a (by simp)
    rw [List.cons_append, List.find?_cons_of_neg _ (by simp [ha])]
    exact ih fun b hb => hpre b (by simp [hb])

theorem faq_find?_eq_none (input : String)
    (h : ∀ kv ∈ faqs, ¬ kv.1.toList <:+: lowerL (pyStrip input.toList)) :
    faqs.find? (fun kv => containsSub kv.1.data (lowerL (pyStrip input.data))) = none := by
  rw [List.find?_eq_none]
  intro kv hkv hc
  exact h kv hkv ((containsSub_iff _ _).mp hc)

theorem edgeOk_cons (prev : Option Char) (a : Char) (l : List Char) :
    edgeOk prev (a :: l) = edgeOk (some a) l := rfl

theorem takeWhile_all_append (p : Char → Bool) (l₁ l₂ : List Char) (h : l₁.all p = true) :
    (l₁ ++ l₂).takeWhile p = l₁ ++ l₂.takeWhile p := by
  induction l₁ with
  | nil => simp
  | cons a as ih =>
    simp only [List.all_cons, Bool.and_eq_true] at h
    simp [List.takeWhile_cons, h.1, ih h.2]

theorem dropWhile_all_append (p : Char → Bool) (l₁ l₂ : List Char) (h : l₁.all p = true) :
    (l₁ ++ l₂).dropWhile p = l₂.dropWhile p := by
  induction l₁ with
  | nil => simp
  | cons a as ih =>
    simp only [List.all_cons, Bool.and_eq_true] at h
    simp [List.dropWhile_cons, h.1, ih h.2]

theorem digit_isWordChar (c : Char) (h : c.isDigit = true) : isWordChar c = true := by
  simp [isWordChar, Char.isAlphanum, h]

theorem boundary_takeWhile_digits (post : List Char) (h : boundaryOk post = true) :
    post.takeWhile Char.isDigit = [] ∧ post.dropWhile Char.isDigit = post := by
  cases post with
  | nil => simp
  | cons d ps =>
    simp only [boundaryOk, Bool.not_eq_eq_eq_not, Bool.not_true] at h
    have hd : Char.isDigit d = false := by
      rw [Bool.eq_false_iff]
      intro hc
      rw [digit_isWordChar d hc] at h
      cases h
    simp [List.takeWhile_cons, List.dropWhile_cons, hd]

theorem findOrderId_isSome_iff (l : List Char) : ∀ prev : Option Char,
    (findOrderId prev l).isSome = true ↔ BoundedLetterDigits prev l := by
  induction l with
  | nil =>
    intro prev
    constructor
    · intro h
      simp [findOrderId] at h
    · rintro ⟨pre, c, ds, post, hl, -, -, -, -, -⟩
      exact absurd hl (by simp)
  | cons c0 rest ih =>
    intro prev
    by_cases h : (prevOk prev && c0.isUpper
        && decide (2 ≤ (rest.takeWhile Char.isDigit).length)
        && boundaryOk (rest.dropWhile Char.isDigit)) = true
    · rw [findOrderId, if_pos h]
      simp only [Bool.and_eq_true, decide_eq_true_eq] at h
      obtain ⟨⟨⟨h1, h2⟩, h3⟩, h4⟩ := h
      refine iff_of_true rfl
        ⟨[], c0, rest.takeWhile Char.isDigit, rest.dropWhile Char.isDigit, ?_, h2, h3, ?_, ?_, h4⟩
      · rw [List.nil_append, List.takeWhile_append_dropWhile]
      · rw [List.all_eq_true]
        intro d hd
        exact List.mem_takeWhile_imp hd
      · simpa [edgeOk] using h1
    · rw [findOrderId, if_neg h, ih (some c0)]
      constructor
      · rintro ⟨pre', c, ds, post, hl, hup, hlen, hdig, hedge, hbd⟩
        exact ⟨c0 :: pre', c, ds, post, by simp [hl], hup, hlen, hdig,
          by rwa [edgeOk_cons], hbd⟩
      · rintro ⟨pre, c, ds, post, hl, hup, hlen, hdig, hedge, hbd⟩
        cases pre with
        | nil =>
          simp only [List.nil_append, List.cons.injEq] at hl
          obtain ⟨hc, hr⟩ := hl
          exfalso
          apply h
          have hedge' : prevOk prev = true := by simpa [edgeOk] using hedge
          obtain ⟨ht, hdw⟩ := boundary_takeWhile_digits post hbd
          have htw : rest.takeWhile Char.isDigit = ds := by
            rw [hr, takeWhile_all_append Char.isDigit ds post hdig, ht, List.append_nil]
          have hdw' : rest.dropWhile Char.isDigit = post := by
            rw [hr, dropWhile_all_append Char.isDigit ds post hdig, hdw]
          simp [hedge', hc, hup, htw, hdw', hlen, hbd]
        | cons p0 pre' =>
          simp only [List.cons_append, List.cons.injEq] at hl
          obtain ⟨hp, hr⟩ := hl
          refine ⟨pre', c, ds, post, hr, hup, hlen, hdig, ?_, hbd⟩
          rw [← hp] at hedge
          rwa [edgeOk_cons] at hedge

theorem eligible_of_extract (input : String) (oid : String)
    (h : findOrderId none input.toList = some oid) :
    order_tool_enabled_predicate input = true := by
  have hs : (findOrderId none input.toList).isSome = true := by rw [h]; rfl
  unfold order_tool_enabled_predicate
  rw [hs, Bool.or_true]

/-! ## Claim theorems: concrete evaluations of the routing policy -/

/-- C1 counterexample: on "I am so angry about this" with default settings the
handler does NOT return a `negative_sentiment` handoff — the input is not
tool-eligible (no "order" substring, no letter-digit pattern), so the
negative-sentiment recheck is never reached. -/
theorem angry_input_not_negative_sentiment :
    outcomeReason (BotAgent.handle defaultSettings "I am so angry about this").2 ≠
      some "negative_sentiment" := by decide

/-- C1 (amended): on "I am so angry about this" with default settings the
handler falls through to the fallback and returns a Handoff with reason
`unknown_or_complex`, logging one `escalation_reason` event. -/
theorem angry_input_unknown_or_complex :
    BotAgent.handle defaultSettings "I am so angry about this" =
      (["escalation_reason"], .handoff "unknown_or_complex"
        "I'm not sure about that. I'll hand you over to a human agent.") := by decide

/-- C2 counterexample: the number of log writes per call is not always one:
the order-id-prompt branch ("order" is eligible but carries no id) writes
zero log events, and a successful tool invocation writes two
(`tool_invoked` then `tool_success`). -/
theorem log_writes_not_exactly_one :
    (BotAgent.handle defaultSettings "order").1.length = 0 ∧
      (BotAgent.handle defaultSettings "check order A100").1.length = 2 := by decide

/-- C4: "check order A100" with default settings yields the exact success
message; the " (Verified customer)" suffix is appended exactly when the
session customer_id is non-empty and equals the record's ("12345"), so it
appears for "12345" and not for "99999" or the empty default. -/
theorem order_A100_message_and_verified_suffix :
    BotAgent.handle defaultSettings "check order A100" =
      (["tool_invoked", "tool_success"],
       .handled "Order A100 is currently 'shipped'. ETA: 2025-09-04. Items: Blue T-shirt, Cap."
         false false) ∧
    BotAgent.handle ⟨"auto", "12345"⟩ "check order A100" =
      (["tool_invoked", "tool_success"],
       .handled
         "Order A100 is currently 'shipped'. ETA: 2025-09-04. Items: Blue T-shirt, Cap. (Verified customer)"
         false false) ∧
    BotAgent.handle ⟨"auto", "99999"⟩ "check order A100" =
      (["tool_invoked", "tool_success"],
       .handled "Order A100 is currently 'shipped'. ETA: 2025-09-04. Items: Blue T-shirt, Cap."
         false false) := by
  refine ⟨by decide, by decide, by decide⟩

/-- C7: "order Z999" with default settings: the id matches the pattern but is
absent from the table, so the tool's error result is recovered locally into a
Handled outcome flagged `tool_error` whose message is the error handler's
not-found text naming Z999; no exception, and the call logs `tool_invoked`
then `tool_error`. -/
theorem order_Z999_not_found_recovered :
    BotAgent.handle defaultSettings "order Z999" =
      (["tool_invoked", "tool_error"],
       .handled "Order ID 'Z999' not found. Please check the ID or contact support."
         false true) := by decide

/-! ## Claim theorems: universal properties of the routing policy -/

/-- C3 counterexample: eligibility is NOT equivalent to (contains "order" OR
contains an uppercase letter followed by two-or-more digits): on "xA12" the
letter-digit pattern occurs but the source regex requires a word boundary
before the letter, so the predicate returns false. -/
theorem eligible_misses_unbounded_pattern :
    order_tool_enabled_predicate "xA12" = false ∧
      ¬ ("order".toList <:+: lowerL "xA12".toList) ∧ LetterDigits "xA12".toList := by
  refine ⟨by decide, by decide,
    ⟨['x'], 'A', ['1', '2'], [], by decide, by decide, by decide, by decide⟩⟩

/-- C3 (amended): for every text, eligibility holds iff the lower-cased text
contains "order" OR the raw text matches one uppercase ASCII letter followed
by two-or-more digits, the group being delimited by word boundaries (not
preceded or followed by a letter, digit or underscore); in particular the
three spec examples evaluate as claimed. -/
theorem eligible_iff_order_or_bounded_pattern :
    (∀ text : String, order_tool_enabled_predicate text = true ↔
      ("order".toList <:+: lowerL text.toList ∨ BoundedLetterDigits none text.toList)) ∧
    order_tool_enabled_predicate "please check order" = true ∧
    order_tool_enabled_predicate "status of XY1" = false ∧
    order_tool_enabled_predicate "A12 status" = true := by
  refine ⟨fun text => ?_, by decide, by decide, by decide⟩
  unfold order_tool_enabled_predicate
  rw [Bool.or_eq_true, containsSub_iff, findOrderId_isSome_iff text.toList none]

/-- C5: any input containing an offensive-word substring (case-insensitive)
is answered by the fixed guardrail apology outcome, whatever the settings:
the handler body is skipped entirely. -/
theorem offensive_input_guardrail_blocks (s : ModelSettings) (input : String)
    (h : ∃ w ∈ OFFENSIVE_WORDS, w.toList <:+: lowerL input.toList) :
    BotAgent.handle s input =
      (["guardrail_triggered"], .handled
        "I'm here to help, but I can't respond to offensive language. Could you rephrase your question?"
        true false) := by
  have hb : (detect_offensive_or_negative input).offensive = true :=
    (offensive_eq_true_iff input).mpr h
  simp [BotAgent.handle, hb]

theorem offensive_input_guardrail_blocks_witness :
    (∃ w ∈ OFFENSIVE_WORDS, w.toList <:+: lowerL "You IDIOT, my order A100 is bad".toList) ∧
      BotAgent.handle defaultSettings "You IDIOT, my order A100 is bad" =
        (["guardrail_triggered"], .handled
          "I'm here to help, but I can't respond to offensive language. Could you rephrase your question?"
          true false) :=
  ⟨by decide,
   offensive_input_guardrail_blocks defaultSettings "You IDIOT, my order A100 is bad" (by decide)⟩

/-- C6: an input with no offensive word whose stripped lower-cased text
contains an FAQ key is answered with the canned answer of the FIRST matching
key in table order, whatever the settings. -/
theorem faq_first_match_answered (s : ModelSettings) (input : String)
    (pre post : List (String × String)) (k a : String)
    (hoff : ∀ w ∈ OFFENSIVE_WORDS, ¬ w.toList <:+: lowerL input.toList)
    (hsplit : faqs = pre ++ (k, a) :: post)
    (hk : k.toList <:+: lowerL (pyStrip input.toList))
    (hpre : ∀ kv ∈ pre, ¬ kv.1.toList <:+: lowerL (pyStrip input.toList)) :
    BotAgent.handle s input = (["faq_answered"], .handled a false false) := by
  have hoffb := offensive_eq_false input hoff
  have hfind : faqs.find? (fun kv => containsSub kv.1.toList (lowerL (pyStrip input.toList)))
      = some (k, a) := by
    rw [hsplit]
    apply find?_append_first
    · exact (containsSub_iff _ _).mpr hk
    · intro kv hkv
      rw [Bool.eq_false_iff]
      intro hc
      exact hpre kv hkv ((containsSub_iff _ _).mp hc)
  have hfind' : List.find? (fun kv => containsSub kv.1.data (lowerL (pyStrip input.data))) faqs
      = some (k, a) := hfind
  simp [BotAgent.handle, hoffb, handleBody, hfind']

theorem faq_first_match_answered_witness :
    ("what is your return policy".toList <:+:
        lowerL (pyStrip "  What is your RETURN policy?  ".toList)) ∧
      BotAgent.handle defaultSettings "  What is your RETURN policy?  " =
        (["faq_answered"], .handled
          "You can return items within 14 days of delivery for a full refund (item must be unused)."
          false false) :=
  ⟨by decide,
   faq_first_match_answered defaultSettings "  What is your RETURN policy?  " [] faqs.tail
     "what is your return policy"
     "You can return items within 14 days of delivery for a full refund (item must be unused)."
     (by decide) rfl (by decide) (by simp)⟩

/-- C8: an input that passes the guardrail, matches no FAQ key, carries an
extractable order id (hence is tool-eligible) and also contains a negative
word proceeds to the order lookup (the first log write is `tool_invoked`)
and never yields the `negative_sentiment` handoff, for tool_choice "auto"
or "required". -/
theorem order_id_with_negative_proceeds_to_lookup (s : ModelSettings) (input oid : String)
    (hoff : ∀ w ∈ OFFENSIVE_WORDS, ¬ w.toList <:+: lowerL input.toList)
    (hfaq : ∀ kv ∈ faqs, ¬ kv.1.toList <:+: lowerL (pyStrip input.toList))
    (hid : findOrderId none input.toList = some oid)
    (hneg : (detect_offensive_or_negative input).negative = true)
    (hc : s.tool_choice = "auto" ∨ s.tool_choice = "required") :
    (BotAgent.handle s input).1.head? = some "tool_invoked" ∧
      outcomeReason (BotAgent.handle s input).2 ≠ some "negative_sentiment" := by
  have hoffb := offensive_eq_false input hoff
  have hfind := faq_find?_eq_none input hfaq
  have he := eligible_of_extract input oid hid
  have hid' : findOrderId none input.data = some oid := hid
  rcases hc with hc | hc <;> cases hres : ordersGet oid <;>
    simp [BotAgent.handle, hoffb, handleBody, hfind, he, hc, hid',
      get_order_status, hres, outcomeReason]

theorem order_id_with_negative_proceeds_to_lookup_witness :
    findOrderId none "I am angry about order A100".toList = some "A100" ∧
      (detect_offensive_or_negative "I am angry about order A100").negative = true ∧
      (BotAgent.handle defaultSettings "I am angry about order A100").1.head? =
        some "tool_invoked" ∧
      outcomeReason (BotAgent.handle defaultSettings "I am angry about order A100").2 ≠
        some "negative_sentiment" :=
  ⟨by decide, by decide,
   order_id_with_negative_proceeds_to_lookup defaultSettings "I am angry about order A100"
     "A100" (by decide) (by decide) (by decide) (by decide) (Or.inl rfl)⟩

/-- C9: with tool_choice "required", an input that passes the guardrail,
matches no FAQ key and is not tool-eligible yields a Handoff with reason
`tool_required_but_disabled`. -/
theorem required_without_eligibility_hands_off (s : ModelSettings) (input : String)
    (hoff : ∀ w ∈ OFFENSIVE_WORDS, ¬ w.toList <:+: lowerL input.toList)
    (hfaq : ∀ kv ∈ faqs, ¬ kv.1.toList <:+: lowerL (pyStrip input.toList))
    (hreq : s.tool_choice = "required")
    (hne : order_tool_enabled_predicate input = false) :
    BotAgent.handle s input =
      (["escalation_reason"], .handoff "tool_required_but_disabled"
        "I need to fetch order details but couldn't. Handing off to human agent.") := by
  have hoffb := offensive_eq_false input hoff
  have hfind := faq_find?_eq_none input hfaq
  simp [BotAgent.handle, hoffb, handleBody, hfind, hne, hreq]

theorem required_without_eligibility_hands_off_witness :
    order_tool_enabled_predicate "tell me a joke" = false ∧
      BotAgent.handle ⟨"required", ""⟩ "tell me a joke" =
        (["escalation_reason"], .handoff "tool_required_but_disabled"
          "I need to fetch order details but couldn't. Handing off to human agent.") :=
  ⟨by decide,
   required_without_eligibility_hands_off ⟨"required", ""⟩ "tell me a joke"
     (by decide) (by decide) rfl (by decide)⟩

/-- C10: with any tool_choice other than "auto" and "required", an input that
passes the guardrail, matches no FAQ key and is tool-eligible (even carrying
a valid order id) never reaches the tool: the handler falls through to the
`unknown_or_complex` handoff and the log shows no `tool_invoked` write. -/
theorem non_auto_non_required_skips_tool (s : ModelSettings) (input : String)
    (hoff : ∀ w ∈ OFFENSIVE_WORDS, ¬ w.toList <:+: lowerL input.toList)
    (hfaq : ∀ kv ∈ faqs, ¬ kv.1.toList <:+: lowerL (pyStrip input.toList))
    (he : order_tool_enabled_predicate input = true)
    (h1 : s.tool_choice ≠ "auto")
    (h2 : s.tool_choice ≠ "required") :
    BotAgent.handle s input =
      (["escalation_reason"], .handoff "unknown_or_complex"
        "I'm not sure about that. I'll hand you over to a human agent.") := by
  have hoffb := offensive_eq_false input hoff
  have hfind := faq_find?_eq_none input hfaq
  have hb1 : (s.tool_choice == "auto") = false := by simp [h1]
  have hb2 : (s.tool_choice == "required") = false := by simp [h2]
  simp [BotAgent.handle, hoffb, handleBody, hfind, he, hb1, hb2]

theorem non_auto_non_required_skips_tool_witness :
    order_tool_enabled_predicate "check order A100" = true ∧
      BotAgent.handle ⟨"none", ""⟩ "check order A100" =
        (["escalation_reason"], .handoff "unknown_or_complex"
          "I'm not sure about that. I'll hand you over to a human agent.") :=
  ⟨by decide,
   non_auto_non_required_skips_tool ⟨"none", ""⟩ "check order A100"
     (by decide) (by decide) (by decide) (by decide) (by decide)⟩

/-- C2 (amended): every call yields exactly one Outcome (the routing function
is total), but the log writes per call are not always one: the guardrail,
FAQ, escalation and handoff branches write exactly one branch-naming event;
a tool invocation writes two (`tool_invoked` then `tool_success` or
`tool_error`); and the order-id-prompt branch writes none. -/
theorem log_trace_shapes (s : ModelSettings) (input : String) :
    (BotAgent.handle s input).1 = ["guardrail_triggered"] ∨
    (BotAgent.handle s input).1 = ["faq_answered"] ∨
    (BotAgent.handle s input).1 = ["escalation_reason"] ∨
    (BotAgent.handle s input).1 = ["tool_invoked", "tool_error"] ∨
    (BotAgent.handle s input).1 = ["tool_invoked", "tool_success"] ∨
    (BotAgent.handle s input).1 = ["escalation"] ∨
    (BotAgent.handle s input).1 = [] := by
  by_cases h1 : (detect_offensive_or_negative input).offensive = true
  · simp [BotAgent.handle, h1]
  · rw [Bool.not_eq_true] at h1
    cases h2 : faqs.find? (fun kv => containsSub kv.1.data (lowerL (pyStrip input.data))) with
    | some kv => simp [BotAgent.handle, h1, handleBody, h2]
    | none =>
      by_cases h3 : (s.tool_choice == "required" && !order_tool_enabled_predicate input) = true
      · simp [BotAgent.handle, h1, handleBody, h2, h3]
      · rw [Bool.not_eq_true] at h3
        by_cases h4 : (order_tool_enabled_predicate input
            && (s.tool_choice == "auto" || s.tool_choice == "required")) = true
        · cases h5 : findOrderId none input.data with
          | none =>
            by_cases h6 : (detect_offensive_or_negative input).negative = true
            · simp [BotAgent.handle, h1, handleBody, h2, h3, h4, h5, h6]
            · rw [Bool.not_eq_true] at h6
              simp [BotAgent.handle, h1, handleBody, h2, h3, h4, h5, h6]
          | some oid =>
            cases h7 : ordersGet oid with
            | none =>
              simp [BotAgent.handle, h1, handleBody, h2, h3, h4, h5, get_order_status, h7]
            | some o =>
              simp [BotAgent.handle, h1, handleBody, h2, h3, h4, h5, get_order_status, h7]
        · rw [Bool.not_eq_true] at h4
          simp [BotAgent.handle, h1, handleBody, h2, h3, h4]
